import Mathlib

/-!
Verification of the WMM-volunteer diagnostic scripts.

This file gives a shallow embedding, in Lean 4, of the behaviour of the two
Python scripts of the repository:

* `test_sf_connection.py` (the "connection bootstrapper"): domain
  normalization, authentication-path selection, and the JSON result object it
  prints on success and on each failure path;
* `explore_sf_fields.py` (the "metadata and sample-data explorer"): the jobs
  and shifts queries (their WHERE / ORDER BY / LIMIT clauses under standard
  SOQL semantics) and the derived `filled` computation per shift.

Strings are modelled as `List Char` (Python `str` operations become list
functions); Salesforce numeric fields are modelled as `Int` wrapped in
`Option` where a field can be absent from a returned record; fallible
script runs return an explicit outcome value.
-/

namespace WMM

/-! ## String machinery (Python `str` operations on `List Char`) -/

/-- Python `needle in haystack` helper: does `p` occur as a prefix of `l`? -/
def listStartsWith : List Char → List Char → Bool
  | [], _ => true
  | _ :: _, [] => false
  | p :: ps, c :: cs => p == c && listStartsWith ps cs

/-- Python substring containment `pat in s`. -/
def containsSub (pat : List Char) : List Char → Bool
  | [] => listStartsWith pat []
  | c :: rest => listStartsWith pat (c :: rest) || containsSub pat rest

/-- Fuel-driven worker for `removeAll` (the fuel is the length of the list,
which strictly bounds the number of steps, keeping the definition
structurally recursive and kernel-computable). -/
def removeAllAux (pat : List Char) : Nat → List Char → List Char
  | 0, l => l
  | _ + 1, [] => []
  | fuel + 1, c :: rest =>
    if 0 < pat.length ∧ listStartsWith pat (c :: rest) = true then
      removeAllAux pat fuel (List.drop (pat.length - 1) rest)
    else
      c :: removeAllAux pat fuel rest

/-- Python `s.replace(pat, '')` for a non-empty `pat`: delete every
non-overlapping occurrence of `pat`, scanning left to right. -/
def removeAll (pat s : List Char) : List Char :=
  removeAllAux pat s.length s

/-- Python `s.rstrip('/')`: delete every trailing `/`. -/
def rstripSlash (s : List Char) : List Char :=
  (s.reverse.dropWhile (fun c => c == '/')).reverse

/-! ## `urllib.parse.urlparse(...).netloc`

Embedding of the `netloc` component computed by CPython `urlsplit`:
an optional leading scheme (`ALPHA *( ALPHA / DIGIT / "+" / "-" / "." ) ":"`)
is split off, and the network location is non-empty exactly when the
remainder starts with `//`, in which case it extends to the first of
`/`, `?`, `#`.  (The WHATWG control-character pre-stripping and the IPv6
bracket validation of CPython are not modelled; no claim involves such
inputs.) -/

/-- Characters allowed in a URL scheme after the leading letter. -/
def schemeChar (c : Char) : Bool :=
  c.isAlpha || c.isDigit || c == '+' || c == '-' || c == '.'

/-- Is the first character an (ASCII) letter?  (`url[0].isascii() and
url[0].isalpha()` in CPython; Lean `Char.isAlpha` is ASCII-only.) -/
def headIsAlpha : List Char → Bool
  | [] => false
  | c :: _ => c.isAlpha

/-- Split a leading `scheme:` off the URL, as CPython `urlsplit` does:
only when the first `:` sits at a positive index, the first character is a
letter, and everything before the `:` is a scheme character. -/
def splitScheme (url : List Char) : List Char :=
  match url.findIdx? (fun c => c == ':') with
  | some i =>
    if 0 < i ∧ headIsAlpha url = true ∧ (url.take i).all schemeChar = true then
      url.drop (i + 1)
    else url
  | none => url

/-- Does the string start with a well-formed URL scheme (`scheme:`)?  This is
the spec's notion of an input "containing a URL scheme". -/
def hasURLScheme (url : List Char) : Bool :=
  match url.findIdx? (fun c => c == ':') with
  | some i => decide (0 < i) && headIsAlpha url && (url.take i).all schemeChar
  | none => false

/-- The `netloc` component of `urlparse`: after removing any scheme, if the
remainder starts with `//` the netloc runs up to the first `/`, `?` or `#`;
otherwise it is empty. -/
def urlparseNetloc (url : List Char) : List Char :=
  let rest := splitScheme url
  if rest.take 2 = ['/', '/'] then
    (rest.drop 2).takeWhile (fun c => !(c == '/' || c == '?' || c == '#'))
  else []

/-! ## The connection bootstrapper (`test_sf_connection.py`) -/

/-- The literal `'http'` tested by `if 'http' in domain`. -/
def httpPat : List Char := "http".toList

/-- The literal `'https://'` removed by the first `replace`. -/
def httpsSchemePat : List Char := "https://".toList

/-- The literal `'http://'` removed by the second `replace`. -/
def httpSchemePat : List Char := "http://".toList

/-- The literal `'lightning.force.com'` tested to pick the auth path. -/
def lightningPat : List Char := "lightning.force.com".toList

/-- The embedded constant `domain = "https://wmm.lightning.force.com/"`,
shared verbatim by both scripts. -/
def embeddedDomain : List Char := "https://wmm.lightning.force.com/".toList

/-- Lines 29-31 of `test_sf_connection.py`:
`if 'http' in domain: domain = urlparse(domain).netloc` followed by
`domain = domain.replace('https://', '').replace('http://', '').rstrip('/')`. -/
def normalizeDomain (domain : List Char) : List Char :=
  let d := if containsSub httpPat domain then urlparseNetloc domain else domain
  rstripSlash (removeAll httpSchemePat (removeAll httpsSchemePat d))

/-- The normalization the spec describes for scheme-carrying inputs: keep
only the parsed netloc, then strip scheme prefixes and trailing slashes.
Stated from the spec's words, for comparison with `normalizeDomain`. -/
def specSchemeNormalize (domain : List Char) : List Char :=
  rstripSlash (removeAll httpSchemePat (removeAll httpsSchemePat (urlparseNetloc domain)))

/-- Which way `Salesforce(...)` is called: with an explicit `instance_url`,
or with the host as the `domain` keyword. -/
inductive AuthPath where
  | instanceUrl (url : List Char)
  | namedDomain (d : List Char)
deriving DecidableEq

/-- Lines 35-50 of `test_sf_connection.py`: a host containing
`lightning.force.com` goes through `instance_url=f'https://{domain}'`,
anything else through `domain=domain`. -/
def selectAuth (host : List Char) : AuthPath :=
  if containsSub lightningPat host then
    AuthPath.instanceUrl ("https://".toList ++ host)
  else
    AuthPath.namedDomain host

/-- The bootstrapper's whole connection set-up: normalize, then branch. -/
def bootstrapperAuth (domain : List Char) : AuthPath :=
  selectAuth (normalizeDomain domain)

/-- Lines 12-17 of `explore_sf_fields.py`: the explorer passes the raw
`domain` constant straight to `Salesforce(..., instance_url=domain)`,
with no normalization and no branch. -/
def explorerAuth (domain : List Char) : AuthPath :=
  AuthPath.instanceUrl domain

/-! ## The explorer's queries and derived values (`explore_sf_fields.py`)

The two SOQL query strings built by the explorer are embedded as functions
over a list of records, with the standard semantics of their clauses:
`WHERE` filters, `ORDER BY ... DESC` sorts descending, `LIMIT n` keeps the
first `n` rows.  Record fields that Salesforce may omit are `Option`s
(`none` models both an absent key and a SOQL `null`). -/

/-- A `GW_Volunteers__Volunteer_Job__c` record (only the identity matters
for the claims; the projected field names are listed separately). -/
structure Job where
  jid : Nat
deriving DecidableEq

/-- A `GW_Volunteers__Volunteer_Shift__c` record, with the fields the
explorer reads: parent job reference, start timestamp (`none` = SOQL null),
duration, total capacity and still-needed count. -/
structure Shift where
  sid : Nat
  job : Nat
  start : Option Int
  duration : Option Int
  total : Option Int
  still : Option Int
deriving DecidableEq

/-- The projection list of the jobs query (lines 44-50). -/
def jobQueryFields : List String :=
  ["Id", "Name", "GW_Volunteers__Description__c",
   "GW_Volunteers__Location__c", "GW_Volunteers__Campaign__c",
   "GW_Volunteers__Skills_Needed__c", "GW_Volunteers__Display_on_Website__c"]

/-- The jobs query (lines 44-50): no `WHERE`, no `ORDER BY`, `LIMIT 5`. -/
def jobsQuery (db : List Job) : List Job :=
  db.take 5

/-- The `WHERE` clause of the shifts query (lines 71-72):
`GW_Volunteers__Volunteer_Job__c = '{job_id}' AND
GW_Volunteers__Start_Date_Time__c != null`. -/
def shiftWhere (jobId : Nat) (s : Shift) : Bool :=
  s.job == jobId && s.start.isSome

/-- The descending start-time order of `ORDER BY ... DESC` (line 73):
`a` comes no later than `b` when `b`'s start is at most `a`'s. -/
def shiftGE (a b : Shift) : Prop :=
  b.start.getD 0 ≤ a.start.getD 0

instance : DecidableRel shiftGE := fun a b =>
  inferInstanceAs (Decidable (b.start.getD 0 ≤ a.start.getD 0))

instance : IsTotal Shift shiftGE :=
  ⟨fun a b => (le_total (b.start.getD 0) (a.start.getD 0)).imp id id⟩

instance : IsTrans Shift shiftGE :=
  ⟨fun _ _ _ hab hbc => le_trans hbc hab⟩

/-- The shifts query (lines 65-75): filter by parent job and non-null
start, order by start descending, `LIMIT 3`. -/
def shiftsQuery (db : List Shift) (jobId : Nat) : List Shift :=
  (((db.filter (shiftWhere jobId)).insertionSort shiftGE).take 3)

/-- Line 81: `total_spots = shift.get('GW_Volunteers__Total_Volunteers__c', 1)`. -/
def total_spots (s : Shift) : Int :=
  s.total.getD 1

/-- Line 82: `still_needed = shift.get('GW_Volunteers__Number_of_Volunteers_Still_Needed__c', 0)`. -/
def still_needed (s : Shift) : Int :=
  s.still.getD 0

/-- Line 83: `filled = total_spots - still_needed if total_spots else 0`
(a Python number is truthy exactly when it is non-zero). -/
def filled (s : Shift) : Int :=
  if total_spots s ≠ 0 then total_spots s - still_needed s else 0

/-! ## Top-level control flow of the two scripts

Each script run is modelled as a function of an environment saying which
runtime events occur: whether `simple_salesforce` can be imported, whether
the Salesforce calls succeed, and what the verification query returns. -/

/-- A `User` record returned by the bootstrapper's verification query. -/
structure UserRec where
  uid : Nat
deriving DecidableEq

/-- The JSON object printed by the bootstrapper.  `userInfo` and
`organizationId` are doubly optional at the top: the outer `none` means the
key is absent from the emitted document, `some x` that it is present with
value `x` (for `userInfo`, `some none` is JSON `null`). -/
structure ResultJson where
  success : Bool
  message : String
  userInfo : Option (Option UserRec)
  organizationId : Option String
deriving DecidableEq

/-- Runtime environment of `test_sf_connection.py`: `libAvailable` is
whether `from simple_salesforce import Salesforce` succeeds, `importErr`
the `str(e)` of the `ImportError` otherwise; `connectOk` is whether the
`Salesforce(...)` construction and the verification query raise no
exception, `connectErr` the `str(e)` otherwise; `userRecords` is the
record list of the verification query and `sfInstance` is `sf.sf_instance`. -/
structure BootEnv where
  libAvailable : Bool
  importErr : String
  connectOk : Bool
  connectErr : String
  userRecords : List UserRec
  sfInstance : String

/-- What `test_sf_connection.py` prints and how it exits: a JSON document
and a normal exit on every path (the whole body sits in
`try/except ImportError/except Exception`). -/
inductive BootOutcome where
  | json (r : ResultJson)
  | unhandled (ename : String)
deriving DecidableEq

/-- The JSON document the bootstrapper prints in environment `env`
(lines 55-73): the `ImportError` arm and the generic `Exception` arm emit
only `success` and `message`; the success path also emits `userInfo`
(`records[0] if records else None`) and `organizationId`. -/
def bootstrapperJson (env : BootEnv) : ResultJson :=
  if env.libAvailable = false then
    { success := false
      message := "simple-salesforce not installed: " ++ env.importErr
      userInfo := none, organizationId := none }
  else if env.connectOk = false then
    { success := false
      message := "Connection failed: " ++ env.connectErr
      userInfo := none, organizationId := none }
  else
    { success := true
      message := "Successfully connected to Salesforce"
      userInfo := some env.userRecords.head?
      organizationId := some env.sfInstance }

/-- A run of `test_sf_connection.py` always ends in a printed JSON document
and a normal exit: both error kinds are caught inside the script's
top-level `try`. -/
def bootstrapperRun (env : BootEnv) : BootOutcome :=
  BootOutcome.json (bootstrapperJson env)

/-- Runtime environment of `explore_sf_fields.py`: `libAvailable` as above,
`bodyOk` is whether the `try` body raises no exception, `bodyErr` the
`str(e)` otherwise. -/
structure ExpEnv where
  libAvailable : Bool
  bodyOk : Bool
  bodyErr : String

/-- What `explore_sf_fields.py` prints and how it exits: `printed none` is a
normal run, `printed (some line)` a caught exception reported by the
`except` arm, `unhandled e` an exception that escapes the script. -/
inductive ExpOutcome where
  | printed (errLine : Option String)
  | unhandled (ename : String)
deriving DecidableEq

/-- A run of `explore_sf_fields.py`: the `from simple_salesforce import
Salesforce` on line 2 sits at module level, before and outside the `try`
block, so a missing library raises an `ImportError` that nothing catches;
exceptions inside the `try` body are caught and printed as an error line. -/
def explorerRun (env : ExpEnv) : ExpOutcome :=
  if env.libAvailable = false then
    ExpOutcome.unhandled "ImportError"
  else if env.bodyOk then
    ExpOutcome.printed none
  else
    ExpOutcome.printed (some ("❌ Error: " ++ env.bodyErr))

/-- Does a run of the explorer end with the error handled (a normal printed
exit) rather than an unhandled exception? -/
def expHandled : ExpOutcome → Bool
  | ExpOutcome.printed _ => true
  | ExpOutcome.unhandled _ => false

/-! ## Helper lemmas -/

/-- Every character of a matched pattern occurs in the matched string. -/
lemma mem_of_listStartsWith :
    ∀ (p l : List Char), listStartsWith p l = true → ∀ c ∈ p, c ∈ l := by
  intro p
  induction p with
  | nil =>
    intro l _ c hc
    simp at hc
  | cons a ps ih =>
    intro l h c hc
    cases l with
    | nil => simp [listStartsWith] at h
    | cons b bs =>
      simp only [listStartsWith, Bool.and_eq_true, beq_iff_eq] at h
      rcases List.mem_cons.mp hc with rfl | hc'
      · exact h.1 ▸ List.mem_cons_self b bs
      · exact List.mem_cons_of_mem b (ih bs h.2 c hc')

/-- Removing a pattern that contains a `/` from a string without `/` does
nothing, whatever the fuel. -/
lemma removeAllAux_no_slash (pat : List Char) (hpat : '/' ∈ pat) :
    ∀ (fuel : Nat) (s : List Char), (∀ c ∈ s, c ≠ '/') →
      removeAllAux pat fuel s = s := by
  intro fuel
  induction fuel with
  | zero => intro s _; rfl
  | succ n ih =>
    intro s hs
    cases s with
    | nil => rfl
    | cons c rest =>
      have hmatch : listStartsWith pat (c :: rest) = false := by
        cases hm : listStartsWith pat (c :: rest)
        · rfl
        · exact absurd rfl (hs '/' (mem_of_listStartsWith pat _ hm '/' hpat))
      simp only [removeAllAux, hmatch]
      rw [if_neg (by simp)]
      exact congrArg (c :: ·) (ih rest fun d hd => hs d (List.mem_cons_of_mem c hd))

/-- `removeAll` with a slash-bearing pattern is the identity on slash-free
strings. -/
lemma removeAll_no_slash (pat s : List Char) (hpat : '/' ∈ pat)
    (hs : ∀ c ∈ s, c ≠ '/') : removeAll pat s = s :=
  removeAllAux_no_slash pat hpat s.length s hs

/-- `rstripSlash` is the identity on slash-free strings. -/
lemma rstripSlash_no_slash (s : List Char) (hs : ∀ c ∈ s, c ≠ '/') :
    rstripSlash s = s := by
  unfold rstripSlash
  cases hr : s.reverse with
  | nil =>
    have : s = [] := by simpa using congrArg List.reverse hr
    simp [this]
  | cons c t =>
    have hc : c ∈ s := List.mem_reverse.mp (hr ▸ List.mem_cons_self c t)
    have hcs : (c == '/') = false := by simpa using hs c hc
    rw [List.dropWhile_cons]
    simp only [hcs]
    rw [if_neg (by simp), ← hr, List.reverse_reverse]

/-- Every character of a parsed netloc differs from `/` (the netloc stops
at the first `/`). -/
lemma urlparseNetloc_no_slash (s : List Char) :
    ∀ c ∈ urlparseNetloc s, c ≠ '/' := by
  intro c hc
  simp only [urlparseNetloc] at hc
  split at hc
  · have := List.mem_takeWhile_imp hc
    simp only [Bool.not_eq_eq_eq_not, Bool.not_true, Bool.or_eq_false_iff,
      beq_eq_false_iff_ne] at this
    exact this.1.1
  · simp at hc

/-! ## The claims -/

/-- C1 (counterexample): a shift whose total-capacity field is absent and
whose still-needed field is 0 gets `filled = 1`, not `0` as claimed: the
code defaults an absent total capacity to 1, not 0. -/
theorem c1_absent_total_counterexample :
    filled (Shift.mk 0 0 none none none (some 0)) ≠ 0 := by decide

/-- C1 (amended): for a shift whose still-needed field reads as 0, a total
capacity equal to 0 gives `filled = 0`, while an absent total capacity
defaults to 1 and gives `filled = 1`; in both cases `filled` is defined and
non-negative. -/
theorem c1_filled_zero_cases (s : Shift) (hstill : s.still.getD 0 = 0) :
    (s.total = some 0 → filled s = 0)
  ∧ (s.total = none → filled s = 1)
  ∧ (s.total = some 0 ∨ s.total = none → 0 ≤ filled s) := by
  refine ⟨fun h => ?_, fun h => ?_, fun h => ?_⟩
  · simp [filled, total_spots, h]
  · simp [filled, total_spots, still_needed, h, hstill]
  · rcases h with h | h <;> simp [filled, total_spots, still_needed, h, hstill]

/-- C1 (witness): the amended statement evaluated at a shift with total
capacity 0 and at a shift with the total-capacity field absent. -/
theorem c1_filled_zero_cases_witness :
    filled (Shift.mk 0 0 none none (some 0) (some 0)) = 0
  ∧ filled (Shift.mk 0 0 none none none none) = 1 :=
  ⟨(c1_filled_zero_cases (Shift.mk 0 0 none none (some 0) (some 0)) rfl).1 rfl,
   (c1_filled_zero_cases (Shift.mk 0 0 none none none none) rfl).2.1 rfl⟩

/-- C2 (counterexample): when the client library is absent, the explorer
does not yield a handled failure result: its import of the client library
sits at module level outside the `try` block, so the
`ImportError` escapes unhandled. -/
theorem c2_explorer_unhandled_counterexample :
    expHandled (explorerRun (ExpEnv.mk false true "")) = false := rfl

/-- C2 (amended): when the client library is absent at import time, the
bootstrapper emits a `success: false` JSON with a dependency-missing
message and exits normally, while the explorer raises an unhandled
`ImportError`. -/
theorem c2_missing_dependency (be : BootEnv) (ee : ExpEnv)
    (hb : be.libAvailable = false) (he : ee.libAvailable = false) :
    bootstrapperRun be = BootOutcome.json
      (ResultJson.mk false
        ("simple-salesforce not installed: " ++ be.importErr) none none)
  ∧ (bootstrapperJson be).success = false
  ∧ explorerRun ee = ExpOutcome.unhandled "ImportError" := by
  refine ⟨?_, ?_, ?_⟩ <;>
    simp [bootstrapperRun, bootstrapperJson, explorerRun, hb, he]

/-- C2 (witness): the amended statement evaluated in environments where the
library is unavailable for each script. -/
theorem c2_missing_dependency_witness :
    bootstrapperRun (BootEnv.mk false "No module named simple_salesforce" true "" [] "")
      = BootOutcome.json
        (ResultJson.mk false
          ("simple-salesforce not installed: " ++ "No module named simple_salesforce")
          none none)
  ∧ explorerRun (ExpEnv.mk false true "") = ExpOutcome.unhandled "ImportError" := by
  have h := c2_missing_dependency
    (BootEnv.mk false "No module named simple_salesforce" true "" [] "")
    (ExpEnv.mk false true "") rfl rfl
  exact ⟨h.1, h.2.2⟩

/-- C3 (counterexample): `ftp://example.com/` contains a URL scheme, but the
normalization does not keep only the parsed netloc: the urlparse branch
fires only when the substring `http` occurs, so the result keeps the whole
`ftp://example.com` instead of `example.com`. -/
theorem c3_scheme_normalization_counterexample :
    hasURLScheme "ftp://example.com/".toList = true
  ∧ urlparseNetloc "ftp://example.com/".toList = "example.com".toList
  ∧ normalizeDomain "ftp://example.com/".toList = "ftp://example.com".toList
  ∧ normalizeDomain "ftp://example.com/".toList
      ≠ specSchemeNormalize "ftp://example.com/".toList :=
  ⟨by decide, by decide, by decide, by decide⟩

/-- C3 (amended): for every input containing the substring `http` — in
particular every input with an `http` or `https` scheme — the normalization
equals the parsed netloc outright (the subsequent scheme-stripping and
slash-stripping are no-ops on a netloc); the embedded
`https://wmm.lightning.force.com/` normalizes to
`wmm.lightning.force.com`. -/
theorem c3_scheme_normalization :
    (∀ s : List Char, containsSub httpPat s = true →
      normalizeDomain s = urlparseNetloc s)
  ∧ normalizeDomain embeddedDomain = "wmm.lightning.force.com".toList := by
  constructor
  · intro s h
    have hno := urlparseNetloc_no_slash s
    simp only [normalizeDomain, h, if_true]
    rw [removeAll_no_slash httpsSchemePat _ (by decide) hno]
    rw [removeAll_no_slash httpSchemePat _ (by decide) hno]
    exact rstripSlash_no_slash _ hno
  · decide

/-- C3 (witness): the amended statement evaluated at the embedded domain
constant. -/
theorem c3_scheme_normalization_witness :
    containsSub httpPat embeddedDomain = true
  ∧ normalizeDomain embeddedDomain = urlparseNetloc embeddedDomain :=
  ⟨by decide, c3_scheme_normalization.1 embeddedDomain (by decide)⟩

/-- C4: a normalized host selects the instance-URL authentication path with
`https://` prepended exactly when it contains `lightning.force.com`, and the
named-domain path with the host itself otherwise. -/
theorem c4_auth_branch (host : List Char) :
    (containsSub lightningPat host = true →
      selectAuth host = AuthPath.instanceUrl ("https://".toList ++ host))
  ∧ (containsSub lightningPat host = false →
      selectAuth host = AuthPath.namedDomain host) := by
  constructor <;> intro h <;> simp [selectAuth, h]

/-- C4 (witness): both branches evaluated, at a lightning host and at the
standard login host. -/
theorem c4_auth_branch_witness :
    selectAuth "wmm.lightning.force.com".toList
      = AuthPath.instanceUrl ("https://".toList ++ "wmm.lightning.force.com".toList)
  ∧ selectAuth "login.salesforce.com".toList
      = AuthPath.namedDomain "login.salesforce.com".toList :=
  ⟨(c4_auth_branch "wmm.lightning.force.com".toList).1 (by decide),
   (c4_auth_branch "login.salesforce.com".toList).2 (by decide)⟩

/-- C5: for every database of shifts and every job identifier, the shifts
query returns at most 3 records, each returned record references the job
and has a non-null start timestamp, and the result is ordered by start
timestamp descending. -/
theorem c5_shifts_query (db : List Shift) (jobId : Nat) :
    (shiftsQuery db jobId).length ≤ 3
  ∧ (∀ s ∈ shiftsQuery db jobId, s.job = jobId ∧ s.start ≠ none)
  ∧ List.Sorted shiftGE (shiftsQuery db jobId) := by
  refine ⟨?_, ?_, ?_⟩
  · exact List.length_take_le 3
      ((db.filter (shiftWhere jobId)).insertionSort shiftGE)
  · intro s hs
    have hmem : s ∈ (db.filter (shiftWhere jobId)).insertionSort shiftGE :=
      List.mem_of_mem_take hs
    have hf : s ∈ db.filter (shiftWhere jobId) :=
      (List.mem_insertionSort shiftGE).mp hmem
    have hw : shiftWhere jobId s = true := (List.mem_filter.mp hf).2
    simp only [shiftWhere, Bool.and_eq_true, beq_iff_eq] at hw
    exact ⟨hw.1, Option.ne_none_iff_isSome.mpr hw.2⟩
  · exact List.Pairwise.sublist
      (List.take_sublist 3 ((db.filter (shiftWhere jobId)).insertionSort shiftGE))
      (List.sorted_insertionSort shiftGE (db.filter (shiftWhere jobId)))

/-- C5 (witness): the query evaluated on a concrete database with a
matching shift, a null-start shift and a shift of another job. -/
theorem c5_shifts_query_witness :
    Shift.mk 1 7 (some 5) none none none ∈ shiftsQuery
      [Shift.mk 1 7 (some 5) none none none,
       Shift.mk 2 7 none none none none,
       Shift.mk 3 8 (some 2) none none none] 7
  ∧ (shiftsQuery
      [Shift.mk 1 7 (some 5) none none none,
       Shift.mk 2 7 none none none none,
       Shift.mk 3 8 (some 2) none none none] 7).length ≤ 3
  ∧ ((Shift.mk 1 7 (some 5) none none none).job = 7
      ∧ (Shift.mk 1 7 (some 5) none none none).start ≠ none) := by
  have h := c5_shifts_query
    [Shift.mk 1 7 (some 5) none none none,
     Shift.mk 2 7 none none none none,
     Shift.mk 3 8 (some 2) none none none] 7
  exact ⟨by decide, h.1, h.2.1 (Shift.mk 1 7 (some 5) none none none) (by decide)⟩

/-- C6: each shift's `filled` is total capacity minus still-needed, with an
absent total capacity defaulting to 1, an absent still-needed defaulting to
0, and a falsy (zero) total capacity forcing `filled` to 0; in particular
total capacity 10 and still-needed 3 give `filled = 7`. -/
theorem c6_filled_formula :
    (∀ s : Shift,
      filled s = if s.total.getD 1 = 0 then 0 else s.total.getD 1 - s.still.getD 0)
  ∧ (∀ s : Shift, s.total = some 10 → s.still = some 3 → filled s = 7) := by
  constructor
  · intro s
    by_cases h : s.total.getD 1 = 0 <;>
      simp [filled, total_spots, still_needed, h]
  · intro s ht hs
    norm_num [filled, total_spots, still_needed, ht, hs]

/-- C6 (witness): the formula evaluated at total capacity 10 and
still-needed 3. -/
theorem c6_filled_formula_witness :
    filled (Shift.mk 0 0 none none (some 10) (some 3)) = 7 :=
  c6_filled_formula.2 (Shift.mk 0 0 none none (some 10) (some 3)) rfl rfl

/-- C7 (counterexample): the jobs query projects 7 fields, not 6. -/
theorem c7_projection_counterexample : jobQueryFields.length ≠ 6 := by decide

/-- C7 (amended): the jobs query returns at most 5 records and projects
exactly 7 distinct fields. -/
theorem c7_jobs_query_bounds :
    (∀ db : List Job, (jobsQuery db).length ≤ 5)
  ∧ jobQueryFields.length = 7 ∧ jobQueryFields.Nodup :=
  ⟨fun db => List.length_take_le 5 db, by decide, by decide⟩

/-- C8 (counterexample): the JSON the bootstrapper emits when the library
is missing carries no `userInfo` and no `organizationId` key, so not every
emitted document has the four claimed fields. -/
theorem c8_failure_fields_counterexample :
    (bootstrapperJson (BootEnv.mk false "no module" true "" [] "")).userInfo = none
  ∧ (bootstrapperJson (BootEnv.mk false "no module" true "" [] "")).organizationId
      = none :=
  ⟨rfl, rfl⟩

/-- C8 (amended): the success-path JSON has all four fields, with `userInfo`
null exactly when the verification query returns no record and
`organizationId` the resolved instance; both failure-path JSONs carry only
`success: false` and a message, with no `userInfo` or `organizationId`
key. -/
theorem c8_result_fields (env : BootEnv) :
    (env.libAvailable = true → env.connectOk = true →
        bootstrapperJson env = ResultJson.mk true
          "Successfully connected to Salesforce"
          (some env.userRecords.head?) (some env.sfInstance)
      ∧ ((bootstrapperJson env).userInfo = some none ↔ env.userRecords = []))
  ∧ (env.libAvailable = false ∨ env.connectOk = false →
        (bootstrapperJson env).success = false
      ∧ (bootstrapperJson env).userInfo = none
      ∧ (bootstrapperJson env).organizationId = none) := by
  constructor
  · intro hl hc
    constructor
    · simp [bootstrapperJson, hl, hc]
    · simp [bootstrapperJson, hl, hc, List.head?_eq_none_iff]
  · intro h
    rcases hl : env.libAvailable with _ | _
    · simp [bootstrapperJson, hl]
    · rcases h with h | h
      · rw [hl] at h; cases h
      · simp [bootstrapperJson, hl, h]

/-- C8 (witness): the amended statement evaluated at a successful
environment with one user record and at a dependency-missing
environment. -/
theorem c8_result_fields_witness :
    bootstrapperJson (BootEnv.mk true "" true "" [UserRec.mk 1] "wmm.my.salesforce.com")
      = ResultJson.mk true "Successfully connected to Salesforce"
          (some (some (UserRec.mk 1))) (some "wmm.my.salesforce.com")
  ∧ (bootstrapperJson (BootEnv.mk false "e" true "" [] "")).organizationId = none := by
  have h1 := (c8_result_fields
    (BootEnv.mk true "" true "" [UserRec.mk 1] "wmm.my.salesforce.com")).1 rfl rfl
  have h2 := (c8_result_fields (BootEnv.mk false "e" true "" [] "")).2 (Or.inl rfl)
  exact ⟨h1.1, h2.2.2⟩

/-- C9 (counterexample): on the domain `login.salesforce.com` the
bootstrapper selects the named-domain path while the explorer passes the
string as an instance URL, so the two bootstrap procedures differ. -/
theorem c9_bootstrap_divergence_counterexample :
    bootstrapperAuth "login.salesforce.com".toList
      ≠ explorerAuth "login.salesforce.com".toList := by decide

/-- C9 (amended): the explorer performs no normalization and always selects
the instance-URL path with the raw domain string; on the embedded domain
both scripts select the instance-URL mode, but with instance URLs differing
by a trailing slash. -/
theorem c9_bootstrap_procedures :
    (∀ d : List Char, explorerAuth d = AuthPath.instanceUrl d)
  ∧ bootstrapperAuth embeddedDomain
      = AuthPath.instanceUrl "https://wmm.lightning.force.com".toList
  ∧ explorerAuth embeddedDomain
      = AuthPath.instanceUrl "https://wmm.lightning.force.com/".toList
  ∧ ("https://wmm.lightning.force.com".toList : List Char)
      ≠ "https://wmm.lightning.force.com/".toList :=
  ⟨fun _ => rfl, by decide, rfl, by decide⟩

/-- C10: whenever the input contains the substring `http` but parses to an
empty netloc (it is not an absolute URL with a network location), the
normalization yields the empty string and the named-domain path is then
selected with an empty domain. -/
theorem c10_http_substring_trigger (s : List Char)
    (hhttp : containsSub httpPat s = true) (hnet : urlparseNetloc s = []) :
    normalizeDomain s = []
  ∧ selectAuth (normalizeDomain s) = AuthPath.namedDomain [] := by
  have hn : normalizeDomain s = [] := by
    simp [normalizeDomain, hhttp, hnet, removeAll, removeAllAux, rstripSlash]
  exact ⟨hn, by rw [hn]; decide⟩

/-- C10 (witness): the bare host `httpbin.my.salesforce.com` contains
`http`, parses to an empty netloc, and normalizes to the empty string,
selecting the named-domain path with an empty domain. -/
theorem c10_http_substring_trigger_witness :
    containsSub httpPat "httpbin.my.salesforce.com".toList = true
  ∧ urlparseNetloc "httpbin.my.salesforce.com".toList = []
  ∧ normalizeDomain "httpbin.my.salesforce.com".toList = []
  ∧ selectAuth (normalizeDomain "httpbin.my.salesforce.com".toList)
      = AuthPath.namedDomain [] := by
  have h := c10_http_substring_trigger "httpbin.my.salesforce.com".toList
    (by decide) (by decide)
  exact ⟨by decide, by decide, h.1, h.2⟩

end WMM
